import Mathlib

/-!
Verification of the attendance application (src/app.py).

The development shallowly embeds the pure core of the application — the
time accounting engine `calculate_work_stats`, the hour formatter
`format_hour`, the monthly report generator
`generate_monthly_report_excel` and the payroll estimate of the staff
dashboard — and proves the specification's claims about them.

Modelling conventions:
* a time-of-day string parses to minutes since midnight (a natural
  number `< 1440`); CPython's `strptime` with format `%H:%M` is embedded
  by its documented token regexes (`2[0-3]|[0-1]\d|\d` for the hour,
  `[0-5]\d|\d` for the minute, the whole string consumed), with `\d`
  taken as an ASCII digit;
* Python floats are modelled as rationals; every arithmetic operation the
  code performs on the values of interest is exact in binary floating
  point at the inputs used by the theorems, so the rational model is
  faithful there;
* Python `int()` applied to a number truncates toward zero, embedded as
  `Int.tdiv` on the numerator and denominator of a rational;
* fallible operations (`strptime`, `datetime.date`) are embedded as
  `Option` / `Except` values; a bare `except` corresponds to `Option.getD`.
-/

set_option maxRecDepth 8192

namespace Attendance

/-- Source constant `WORK_HOURS_PER_DAY = 7.5` (app.py line 23). -/
def WORK_HOURS_PER_DAY : ℚ := 15 / 2

/-- Source constant `NIGHT_START_HOUR = 22` (app.py line 24). -/
def NIGHT_START_HOUR : ℕ := 22

/-- Source constant `NIGHT_END_HOUR = 5` (app.py line 25). -/
def NIGHT_END_HOUR : ℕ := 5

/-- Numeric value of an ASCII digit character. -/
def digitVal (c : Char) : ℕ := c.toNat - 48

/-- Split a character list at every colon.  The strptime regex for the
format `%H:%M` carves the input into the maximal colon-free runs
separated by colons; acceptance then requires exactly two runs. -/
def splitOnColon : List Char → List (List Char)
  | [] => [[]]
  | c :: rest =>
    if c = ':' then [] :: splitOnColon rest
    else
      match splitOnColon rest with
      | h :: t => (c :: h) :: t
      | [] => [[c]]

/-- CPython `_strptime` token for `%H` (mx = 23) and `%M` (mx = 59): a
single digit, or two digits whose value is at most `mx`. -/
def parseTimeTok (cs : List Char) (mx : ℕ) : Option ℕ :=
  match cs with
  | [c] => if c.isDigit then some (digitVal c) else none
  | [c1, c2] =>
    if c1.isDigit && c2.isDigit && decide (10 * digitVal c1 + digitVal c2 ≤ mx) then
      some (10 * digitVal c1 + digitVal c2)
    else none
  | _ => none

/-- `datetime.datetime.strptime(s, "%H:%M")` as a total function: minutes
since midnight on success, `none` where CPython raises `ValueError`. -/
def strptimeHM (s : String) : Option ℕ :=
  match splitOnColon s.toList with
  | [h, m] =>
    match parseTimeTok h 23, parseTimeTok m 59 with
    | some hv, some mv => some (hv * 60 + mv)
    | _, _ => none
  | _ => none

/-- Python truthiness of an optional string field: `None` and the empty
string are falsy. -/
def pyStrTruthy : Option String → Bool
  | none => false
  | some s => !s.isEmpty

/-- Underlying string of an optional string field, defaulting to empty. -/
def optStr (o : Option String) : String := o.getD ""

/-- Body of the minute loop of `calculate_work_stats` (app.py lines
100-102): `h = current.hour`, night when
`h >= NIGHT_START_HOUR or h < NIGHT_END_HOUR`.  The argument is the
absolute minute, so the hour after a midnight rollover is `m / 60 % 24`. -/
def isNightMinute (m : ℕ) : Bool :=
  decide (NIGHT_START_HOUR ≤ m / 60 % 24 ∨ m / 60 % 24 < NIGHT_END_HOUR)

/-- Break-hours computation of `calculate_work_stats` (app.py lines
72-83): zero unless both break fields are truthy and both parse (a
`ValueError` is swallowed by the `except: pass`); 24 hours are added to
`break_end` when it is strictly earlier than `break_start`. -/
def break_hours_calc (break_start break_end : Option String) : ℚ :=
  if pyStrTruthy break_start && pyStrTruthy break_end then
    match strptimeHM (optStr break_start), strptimeHM (optStr break_end) with
    | some bIn, some bOut0 =>
      let bOut := if bOut0 < bIn then bOut0 + 1440 else bOut0
      ((bOut : ℚ) - (bIn : ℚ)) / 60
    | _, _ => 0
  else 0

/-- The time accounting engine `calculate_work_stats` (app.py lines
51-107).  Returns `(net hours, overtime hours, night hours)`.  A falsy
`clock_in`/`clock_out` and a `ValueError` from parsing either both yield
the zero triple; 24 hours are added to `clock_out` when it is strictly
earlier than `clock_in`; night minutes are counted one minute at a time
over the half-open clocked span. -/
def calculate_work_stats (clock_in clock_out break_start break_end : Option String) :
    ℚ × ℚ × ℚ :=
  if !pyStrTruthy clock_in || !pyStrTruthy clock_out then (0, 0, 0)
  else
    match strptimeHM (optStr clock_in), strptimeHM (optStr clock_out) with
    | some tIn, some tOut0 =>
      let tOut := if tOut0 < tIn then tOut0 + 1440 else tOut0
      let break_hours := break_hours_calc break_start break_end
      let total_duration : ℚ := ((tOut : ℚ) - (tIn : ℚ)) / 60
      let net_work_hours : ℚ := max 0 (total_duration - break_hours)
      let overtime_hours : ℚ := max 0 (net_work_hours - WORK_HOURS_PER_DAY)
      let night_minutes : ℕ :=
        ((List.range (tOut - tIn)).filter (fun k => isNightMinute (tIn + k))).length
      (net_work_hours, overtime_hours, (night_minutes : ℚ) / 60)
    | _, _ => (0, 0, 0)

/-- Python `int()` applied to a (here rational-modelled) number:
truncation toward zero. -/
def pyIntTrunc (q : ℚ) : ℤ := q.num.tdiv (q.den : ℤ)

/-- Python format spec `02` for an integer: decimal digits left-padded
with zeros to width two. -/
def pyFormat02 (n : ℤ) : String :=
  if n < 0 then "-" ++ toString (-n).toNat
  else
    let s := toString n.toNat
    if s.length < 2 then "0" ++ s else s

/-- `format_hour` (app.py lines 109-115).  The `None` guard of line 111
is outside this model, whose inputs are already numbers; `val == 0`
yields the empty string, otherwise `hours = int(val)` and
`minutes = int((val - hours) * 60)` are rendered zero-padded. -/
def format_hour (val : ℚ) : String :=
  if val = 0 then ""
  else
    let hours := pyIntTrunc val
    let minutes := pyIntTrunc ((val - (hours : ℚ)) * 60)
    pyFormat02 hours ++ ":" ++ pyFormat02 minutes

/-- `calendar.isleap`. -/
def isleap (y : ℤ) : Prop := y % 4 = 0 ∧ (y % 100 ≠ 0 ∨ y % 400 = 0)

instance (y : ℤ) : Decidable (isleap y) := by unfold isleap; infer_instance

/-- `calendar.mdays`. -/
def mdays : List ℕ := [0, 31, 28, 31, 30, 31, 30, 31, 31, 30, 31, 30, 31]

/-- Day count computed by `calendar.monthrange`:
`mdays[month] + (month == 2 and isleap(year))`. -/
def daysInMonth (year month : ℤ) : ℕ :=
  mdays.getD month.toNat 0 + (if month = 2 ∧ isleap year then 1 else 0)

/-- `calendar.monthrange` restricted to its day-count result: it raises
(`none`) exactly when the month is outside 1..12. -/
def monthrange (year month : ℤ) : Option ℕ :=
  if 1 ≤ month ∧ month ≤ 12 then some (daysInMonth year month) else none

/-- Validity domain of `datetime.date(year, month, day)`: construction
raises `ValueError` outside it. -/
def pyDateValid (year month : ℤ) (day : ℕ) : Prop :=
  1 ≤ year ∧ year ≤ 9999 ∧ 1 ≤ month ∧ month ≤ 12 ∧ 1 ≤ day ∧ day ≤ daysInMonth year month

instance (year month : ℤ) (day : ℕ) : Decidable (pyDateValid year month day) := by
  unfold pyDateValid; infer_instance

/-- Left-pad a string with zeros to the given width. -/
def zfill (w : ℕ) (s : String) : String :=
  if s.length < w then String.mk (List.replicate (w - s.length) '0') ++ s else s

/-- `date_obj.strftime("%Y-%m-%d")` for a valid date. -/
def dateStr (year month : ℤ) (day : ℕ) : String :=
  zfill 4 (toString year.toNat) ++ "-" ++ zfill 2 (toString month.toNat) ++ "-" ++
    zfill 2 (toString day)

/-- One attendance document as consumed by the report generator: the
`date` key and the four optional clock-event strings. -/
structure AttRecord where
  date : String
  clock_in : Option String
  clock_out : Option String
  break_start : Option String
  break_end : Option String
deriving DecidableEq

/-- Python dict assignment `m[k] = v`: overwrite the value of an existing
key in place, otherwise append the new binding. -/
def mapInsert (m : List (String × AttRecord)) (k : String) (v : AttRecord) :
    List (String × AttRecord) :=
  if m.any (fun p => p.1 == k) then
    m.map (fun p => if p.1 == k then (k, v) else p)
  else m ++ [(k, v)]

/-- Python dict lookup `m[k]` / `k in m`. -/
def mapLookup (m : List (String × AttRecord)) (k : String) : Option AttRecord :=
  (m.find? (fun p => p.1 == k)).map (fun p => p.2)

/-- The dict comprehension of app.py line 264: for each record in the
given order, bind its date to it, later records overwriting earlier
ones. -/
def buildAttMap (records : List AttRecord) : List (String × AttRecord) :=
  records.foldl (fun m r => mapInsert m r.date r) []

/-- The data cells written into one day row of the report grid
(columns A and C, D, E, F, I, J; app.py lines 278, 298-307). -/
structure DayRow where
  day : ℕ
  cellClockIn : String
  cellClockOut : String
  cellBreak : String
  cellNet : String
  cellOver : String
  cellNight : String
deriving DecidableEq

/-- The data content of the generated workbook: the day rows, the
accumulated monthly totals, and the formatted cells of the totals row. -/
structure Report where
  rows : List DayRow
  total_net : ℚ
  total_over : ℚ
  total_night : ℚ
  cellTotalNet : String
  cellTotalOver : String
  cellTotalNight : String
deriving DecidableEq

/-- Day-row contents for a given looked-up record (app.py lines 289-307):
filled from the record and the engine's stats when a record exists for
the date, all-empty cells otherwise. -/
def rowOfRecord (day : ℕ) : Option AttRecord → DayRow
  | some r =>
    let s := calculate_work_stats r.clock_in r.clock_out r.break_start r.break_end
    { day := day
      cellClockIn := optStr r.clock_in
      cellClockOut := optStr r.clock_out
      cellBreak := if pyStrTruthy r.break_start then optStr r.break_start ++ "~" else ""
      cellNet := format_hour s.1
      cellOver := format_hour s.2.1
      cellNight := format_hour s.2.2 }
  | none =>
    { day := day, cellClockIn := "", cellClockOut := "", cellBreak := ""
      cellNet := "", cellOver := "", cellNight := "" }

/-- DayStats contributed to the running totals for a given looked-up
record (app.py lines 309-311); a missing record contributes the zero
triple. -/
def statOfRecord : Option AttRecord → ℚ × ℚ × ℚ
  | some r => calculate_work_stats r.clock_in r.clock_out r.break_start r.break_end
  | none => (0, 0, 0)

/-- One iteration of the day loop of `generate_monthly_report_excel`
(app.py lines 273-313): `datetime.date(year, month, day)` is constructed
first (a hard failure when invalid), then the row is rendered and the
totals accumulated from the looked-up record. -/
def reportStep (year month : ℤ) (att : List (String × AttRecord))
    (st : List DayRow × ℚ × ℚ × ℚ) (day : ℕ) :
    Except Unit (List DayRow × ℚ × ℚ × ℚ) :=
  if pyDateValid year month day then
    let ds := dateStr year month day
    let row := rowOfRecord day (mapLookup att ds)
    let s := statOfRecord (mapLookup att ds)
    Except.ok (st.1 ++ [row], st.2.1 + s.1, st.2.2.1 + s.2.1, st.2.2.2 + s.2.2)
  else Except.error ()

/-- The day loop of `generate_monthly_report_excel`, folded over the day
numbers; an uncaught exception aborts the whole call. -/
def reportLoop (year month : ℤ) (att : List (String × AttRecord)) :
    List ℕ → List DayRow × ℚ × ℚ × ℚ → Except Unit (List DayRow × ℚ × ℚ × ℚ)
  | [], st => Except.ok st
  | d :: ds, st =>
    match reportStep year month att st d with
    | Except.ok st' => reportLoop year month att ds st'
    | Except.error e => Except.error e

/-- `generate_monthly_report_excel` (app.py lines 180-339), restricted to
the data it writes.  `last_day` falls back to 30 when `monthrange`
raises (the bare `except` of lines 258-261); the day loop then runs over
days 1..`last_day` and the totals row is written from the accumulated
totals through `format_hour` (lines 324-326). -/
def generate_monthly_report_excel (year month : ℤ) (records : List AttRecord) :
    Except Unit Report :=
  let last_day := (monthrange year month).getD 30
  let att := buildAttMap records
  match reportLoop year month att (List.range' 1 last_day) ([], 0, 0, 0) with
  | Except.ok (rows, tn, tov, tni) =>
    Except.ok
      { rows := rows, total_net := tn, total_over := tov, total_night := tni
        cellTotalNet := format_hour tn, cellTotalOver := format_hour tov
        cellTotalNight := format_hour tni }
  | Except.error e => Except.error e

/-- Payroll estimate of `staff_dashboard` (app.py lines 555-559): the
configured salary unchanged for the monthly basis, otherwise
`int(work_hours * salary)`. -/
def est_pay (salary_type : String) (salary : ℤ) (work_hours : ℚ) : ℤ :=
  if salary_type = "月給" then salary else pyIntTrunc (work_hours * (salary : ℚ))

/-! ### Definitions following the specification's words -/

/-- Spec: gross span in hours, after the day-crossing adjustment of
`clock_out`. -/
def spec_gross_span (a b : ℕ) : ℚ :=
  (((if b < a then b + 1440 else b : ℕ) : ℚ) - (a : ℚ)) / 60

/-- Spec: break duration in hours, counted only when both break fields
are present and well formed (zero otherwise), with the day-crossing
adjustment applied to `break_end`. -/
def spec_break_duration (break_start break_end : Option String) : ℚ :=
  match break_start, break_end with
  | some s, some e =>
    match strptimeHM s, strptimeHM e with
    | some p, some q => (((if q < p then q + 1440 else q : ℕ) : ℚ) - (p : ℚ)) / 60
    | _, _ => 0
  | _, _ => 0

/-- Spec: the count of whole minutes of the half-open interval `[a, b)`
whose hour-of-day lies in the night window (hour at least 22 or below
5). -/
def spec_night_minutes (a b : ℕ) : ℕ :=
  ((Finset.Ico a b).filter (fun m => 22 ≤ m / 60 % 24 ∨ m / 60 % 24 < 5)).card

/-- Spec (claim C6): the strict two-digit `HH:MM` 24-hour pattern. -/
def strictHHMM (s : String) : Bool :=
  match s.toList with
  | [h1, h2, c, m1, m2] =>
    c == ':' && h1.isDigit && h2.isDigit && m1.isDigit && m2.isDigit &&
      decide (10 * digitVal h1 + digitVal h2 ≤ 23) &&
      decide (10 * digitVal m1 + digitVal m2 ≤ 59)
  | _ => false

/-- Spec (claim C5, as stated): formatter whose minute part is
`round(fractional_part * 60)`. -/
def format_hour_round (val : ℚ) : String :=
  if val = 0 then ""
  else pyFormat02 ⌊val⌋ ++ ":" ++ pyFormat02 (round ((val - (⌊val⌋ : ℚ)) * 60))

/-- Amended claim C5 formatter: the minute part is truncated, not
rounded. -/
def format_hour_floor (val : ℚ) : String :=
  if val = 0 then ""
  else pyFormat02 ⌊val⌋ ++ ":" ++ pyFormat02 ⌊(val - (⌊val⌋ : ℚ)) * 60⌋

/-- A sample attendance document used to instantiate the report-level
theorems on concrete data. -/
def sampleRecord : AttRecord :=
  { date := "2024-02-01", clock_in := some "09:00", clock_out := some "18:00"
    break_start := some "12:00", break_end := some "13:00" }

/-- First of two sample documents sharing one date. -/
def dupRecordA : AttRecord :=
  { date := "2024-01-05", clock_in := some "09:00", clock_out := some "17:00"
    break_start := none, break_end := none }

/-- Second of two sample documents sharing one date. -/
def dupRecordB : AttRecord :=
  { date := "2024-01-05", clock_in := some "10:00", clock_out := some "12:00"
    break_start := none, break_end := none }

/-! ### Helper lemmas -/

lemma isEmpty_eq_false_of_strptime (s : String) (a : ℕ) (h : strptimeHM s = some a) :
    s.isEmpty = false := by
  cases he : s.isEmpty
  · rfl
  · rw [(String.isEmpty_iff s).mp he] at h
    exact Option.noConfusion h

lemma break_hours_calc_eq_spec (bs be : Option String) :
    break_hours_calc bs be = spec_break_duration bs be := by
  rcases bs with _ | s
  · simp [break_hours_calc, spec_break_duration, pyStrTruthy]
  · rcases be with _ | e
    · simp [break_hours_calc, spec_break_duration, pyStrTruthy]
    · cases hs : s.isEmpty
      · cases he : e.isEmpty
        · rcases hp : strptimeHM s with _ | p <;> rcases hq : strptimeHM e with _ | q <;>
            simp [break_hours_calc, spec_break_duration, pyStrTruthy, hs, he, hp, hq, optStr]
        · rw [(String.isEmpty_iff e).mp he]
          rcases hp : strptimeHM s with _ | p <;>
            simp [break_hours_calc, spec_break_duration, pyStrTruthy, hs, hp, optStr,
              show ("" : String).isEmpty = true from rfl,
              show strptimeHM "" = none from rfl]
      · rw [(String.isEmpty_iff s).mp hs]
        simp [break_hours_calc, spec_break_duration, pyStrTruthy,
          show ("" : String).isEmpty = true from rfl,
          show strptimeHM "" = none from rfl]

lemma night_count_aux (a n : ℕ) :
    ((List.range n).filter (fun k => isNightMinute (a + k))).length =
      spec_night_minutes a (a + n) := by
  induction n with
  | zero => simp [spec_night_minutes]
  | succ n ih =>
    rw [List.range_succ, List.filter_append, List.length_append, ih]
    unfold spec_night_minutes
    rw [show a + (n + 1) = (a + n) + 1 from rfl,
      Nat.Ico_succ_right_eq_insert_Ico (Nat.le_add_right a n), Finset.filter_insert]
    by_cases hp : 22 ≤ (a + n) / 60 % 24 ∨ (a + n) / 60 % 24 < 5
    · rw [if_pos hp, Finset.card_insert_of_not_mem (by simp)]
      have hb : isNightMinute (a + n) = true := by
        simp only [isNightMinute, NIGHT_START_HOUR, NIGHT_END_HOUR]
        exact decide_eq_true hp
      simp [hb]
    · rw [if_neg hp]
      have hb : isNightMinute (a + n) = false := by
        simp only [isNightMinute, NIGHT_START_HOUR, NIGHT_END_HOUR]
        exact decide_eq_false hp
      simp [hb]

lemma night_count_eq (a b : ℕ) :
    ((List.range (b - a)).filter (fun k => isNightMinute (a + k))).length =
      spec_night_minutes a b := by
  rcases Nat.le_total a b with h | h
  · rw [night_count_aux a (b - a), Nat.add_sub_cancel' h]
  · have h0 : b - a = 0 := by omega
    have hico : Finset.Ico a b = ∅ := Finset.Ico_eq_empty (by omega)
    rw [h0]
    simp [spec_night_minutes, hico]

/-- Characterization of the engine on present, well-formed clock events in
terms of the specification-level gross span, break duration and night
count. -/
lemma calculate_work_stats_eq (sIn sOut : String) (bs be : Option String) (a b : ℕ)
    (h1 : strptimeHM sIn = some a) (h2 : strptimeHM sOut = some b) :
    calculate_work_stats (some sIn) (some sOut) bs be =
      (max 0 (spec_gross_span a b - spec_break_duration bs be),
       max 0 (max 0 (spec_gross_span a b - spec_break_duration bs be) - WORK_HOURS_PER_DAY),
       (spec_night_minutes a (if b < a then b + 1440 else b) : ℚ) / 60) := by
  have e1 : sIn.isEmpty = false := isEmpty_eq_false_of_strptime sIn a h1
  have e2 : sOut.isEmpty = false := isEmpty_eq_false_of_strptime sOut b h2
  unfold calculate_work_stats
  simp only [pyStrTruthy, e1, e2, Bool.not_false, Bool.not_true, Bool.or_self,
    Bool.false_eq_true, if_false, optStr, Option.getD_some, h1, h2]
  simp only [Prod.mk.injEq]
  refine ⟨?_, ?_, ?_⟩
  · rw [break_hours_calc_eq_spec]
    rfl
  · rw [break_hours_calc_eq_spec]
    rfl
  · rw [night_count_eq a (if b < a then b + 1440 else b)]

lemma pyIntTrunc_eq_floor (q : ℚ) (hq : 0 ≤ q) : pyIntTrunc q = ⌊q⌋ := by
  unfold pyIntTrunc
  rw [Rat.floor_def]
  exact Int.tdiv_eq_ediv (Rat.num_nonneg.mpr hq) (by positivity)

lemma find?_replace (ps : List (String × AttRecord)) (k k' : String) (v : AttRecord)
    (hne : (k' == k) = false) :
    (ps.map (fun p => if p.1 == k then (k, v) else p)).find? (fun p => p.1 == k') =
      ps.find? (fun p => p.1 == k') := by
  have hne' : ¬ k = k' := fun h => by
    rw [h] at hne
    simp at hne
  induction ps with
  | nil => rfl
  | cons p ps ih =>
    rw [List.map_cons]
    rcases Bool.eq_false_or_eq_true (p.1 == k) with hp | hp
    · rw [if_pos hp]
      have hpk : p.1 = k := by simpa using hp
      have g1 : (k == k') = false := by simp [hne']
      have g2 : (p.1 == k') = false := by rw [hpk]; exact g1
      simp only [List.find?, g1, g2, ih]
    · rw [if_neg (by simp [hp])]
      rcases Bool.eq_false_or_eq_true (p.1 == k') with hpk | hpk
      · simp only [List.find?, hpk]
      · simp only [List.find?, hpk, ih]

lemma find?_replace_hit (ps : List (String × AttRecord)) (k : String) (v : AttRecord)
    (hany : ps.any (fun p => p.1 == k) = true) :
    (ps.map (fun p => if p.1 == k then (k, v) else p)).find? (fun p => p.1 == k) =
      some (k, v) := by
  induction ps with
  | nil => simp at hany
  | cons p ps ih =>
    rw [List.map_cons]
    rcases Bool.eq_false_or_eq_true (p.1 == k) with hp | hp
    · rw [if_pos hp]
      simp only [List.find?, beq_self_eq_true]
    · rw [if_neg (by simp [hp])]
      have hany' : ps.any (fun p => p.1 == k) = true := by
        simpa [List.any_cons, hp] using hany
      simp only [List.find?, hp, ih hany']

lemma mapLookup_mapInsert (m : List (String × AttRecord)) (k k' : String) (v : AttRecord) :
    mapLookup (mapInsert m k v) k' = if k' == k then some v else mapLookup m k' := by
  unfold mapInsert mapLookup
  rcases Bool.eq_false_or_eq_true (m.any (fun p => p.1 == k)) with hany | hany
  · rw [if_pos hany]
    rcases Bool.eq_false_or_eq_true (k' == k) with hkk | hkk
    · have hk : k' = k := by simpa using hkk
      subst hk
      rw [if_pos hkk, find?_replace_hit m k' v hany]
      rfl
    · rw [if_neg (by simp [hkk]), find?_replace m k k' v hkk]
  · rw [if_neg (by simp [hany]), List.find?_append]
    rcases Bool.eq_false_or_eq_true (k' == k) with hkk | hkk
    · have hk : k' = k := by simpa using hkk
      subst hk
      have hnone : m.find? (fun p => p.1 == k') = none := by
        rw [List.find?_eq_none]
        intro x hx hpx
        have hx2 : m.any (fun p => p.1 == k') = true := List.any_of_mem hx hpx
        rw [hx2] at hany
        exact Bool.noConfusion hany
      rw [hnone, if_pos hkk]
      simp [List.find?]
    · have hne' : ¬ k' = k := by simpa using hkk
      have hkk' : (k == k') = false := by
        simp only [beq_eq_false_iff_ne]
        exact fun h => hne' h.symm
      have h1 : List.find? (fun p => p.1 == k') [(k, v)] = none := by
        simp [List.find?, hkk']
      rw [h1, if_neg (by simp [hkk])]
      cases m.find? (fun p => p.1 == k') <;> rfl

lemma getLast?_cons_or {α : Type} (a : α) (l : List α) :
    (a :: l).getLast? = l.getLast?.or (some a) := by
  induction l generalizing a with
  | nil => rfl
  | cons b t ih =>
    rw [List.getLast?_cons_cons, ih b]
    cases ht : t.getLast? <;> rfl

lemma foldl_insert_lookup (rs : List AttRecord) (m0 : List (String × AttRecord)) (k : String) :
    mapLookup (rs.foldl (fun m r => mapInsert m r.date r) m0) k =
      ((rs.filter (fun r => r.date == k)).getLast?).or (mapLookup m0 k) := by
  induction rs generalizing m0 with
  | nil => rfl
  | cons r rs ih =>
    rw [List.foldl_cons, ih (mapInsert m0 r.date r), mapLookup_mapInsert m0 r.date k r]
    rcases Bool.eq_false_or_eq_true (r.date == k) with hr | hr
    · have hk : (k == r.date) = true := by
        have heq : r.date = k := by simpa using hr
        simp [heq]
      rw [if_pos hk, List.filter_cons, if_pos hr, getLast?_cons_or, Option.or_assoc]
      rfl
    · have hk : (k == r.date) = false := by
        have hne : ¬ r.date = k := by simpa using hr
        simp only [beq_eq_false_iff_ne]
        exact fun h => hne h.symm
      rw [if_neg (by simp [hk]), List.filter_cons, if_neg (by simp [hr])]

/-- The dict built on app.py line 264 maps each date to the last record
with that date in the given order. -/
lemma buildAttMap_lookup (records : List AttRecord) (k : String) :
    mapLookup (buildAttMap records) k =
      (records.filter (fun r => r.date == k)).getLast? := by
  unfold buildAttMap
  rw [foldl_insert_lookup]
  cases (records.filter (fun r => r.date == k)).getLast? <;> rfl

/-- The record looked up while rendering one day of the report. -/
def dayLookup (records : List AttRecord) (year month : ℤ) (d : ℕ) : Option AttRecord :=
  mapLookup (buildAttMap records) (dateStr year month d)

lemma reportLoop_eq (year month : ℤ) (att : List (String × AttRecord)) (days : List ℕ)
    (h : ∀ d ∈ days, pyDateValid year month d)
    (rows : List DayRow) (tn tov tni : ℚ) :
    reportLoop year month att days (rows, tn, tov, tni) =
      Except.ok
        (rows ++ days.map (fun d => rowOfRecord d (mapLookup att (dateStr year month d))),
         tn + (days.map (fun d => (statOfRecord (mapLookup att (dateStr year month d))).1)).sum,
         tov + (days.map (fun d => (statOfRecord (mapLookup att (dateStr year month d))).2.1)).sum,
         tni + (days.map (fun d =>
           (statOfRecord (mapLookup att (dateStr year month d))).2.2)).sum) := by
  induction days generalizing rows tn tov tni with
  | nil => simp [reportLoop]
  | cons d ds ih =>
    have hd : pyDateValid year month d := h d (by simp)
    simp only [reportLoop, reportStep, if_pos hd]
    rw [ih (fun x hx => h x (by simp [hx]))]
    simp only [List.map_cons, List.sum_cons]
    refine congrArg Except.ok ?_
    simp only [Prod.mk.injEq]
    refine ⟨by simp, by rw [add_assoc], by rw [add_assoc], by rw [add_assoc]⟩

lemma daysInMonth_pos (year month : ℤ) (h1 : 1 ≤ month) (h2 : month ≤ 12) :
    0 < daysInMonth year month := by
  have hp : 0 < mdays.getD month.toNat 0 := by
    interval_cases month <;> decide
  unfold daysInMonth
  omega

/-- On a valid year and month the generator succeeds and its content is
the per-day fold over days 1..`daysInMonth`. -/
lemma generate_eq (year month : ℤ) (records : List AttRecord)
    (h1 : 1 ≤ year) (h2 : year ≤ 9999) (h3 : 1 ≤ month) (h4 : month ≤ 12) :
    generate_monthly_report_excel year month records =
      Except.ok
        { rows := (List.range' 1 (daysInMonth year month)).map
            (fun d => rowOfRecord d (dayLookup records year month d))
          total_net := ((List.range' 1 (daysInMonth year month)).map
            (fun d => (statOfRecord (dayLookup records year month d)).1)).sum
          total_over := ((List.range' 1 (daysInMonth year month)).map
            (fun d => (statOfRecord (dayLookup records year month d)).2.1)).sum
          total_night := ((List.range' 1 (daysInMonth year month)).map
            (fun d => (statOfRecord (dayLookup records year month d)).2.2)).sum
          cellTotalNet := format_hour (((List.range' 1 (daysInMonth year month)).map
            (fun d => (statOfRecord (dayLookup records year month d)).1)).sum)
          cellTotalOver := format_hour (((List.range' 1 (daysInMonth year month)).map
            (fun d => (statOfRecord (dayLookup records year month d)).2.1)).sum)
          cellTotalNight := format_hour (((List.range' 1 (daysInMonth year month)).map
            (fun d => (statOfRecord (dayLookup records year month d)).2.2)).sum) } := by
  have hvalid : ∀ d ∈ List.range' 1 (daysInMonth year month), pyDateValid year month d := by
    intro d hd
    rw [List.mem_range'_1] at hd
    exact ⟨h1, h2, h3, h4, hd.1, by omega⟩
  have hm : monthrange year month = some (daysInMonth year month) := by
    unfold monthrange
    rw [if_pos ⟨h3, h4⟩]
  unfold generate_monthly_report_excel
  simp only [hm, Option.getD_some]
  rw [reportLoop_eq year month (buildAttMap records)
    (List.range' 1 (daysInMonth year month)) hvalid [] 0 0 0]
  simp only [List.nil_append, zero_add]
  rfl

lemma calculate_break_congr (ci co bs be bs' be' : Option String)
    (h : break_hours_calc bs be = break_hours_calc bs' be') :
    calculate_work_stats ci co bs be = calculate_work_stats ci co bs' be' := by
  unfold calculate_work_stats
  rw [h]

lemma break_hours_calc_none_left (be : Option String) :
    break_hours_calc none be = 0 := rfl

lemma break_hours_calc_none_right (bs : Option String) :
    break_hours_calc bs none = 0 := by
  unfold break_hours_calc
  simp [pyStrTruthy]

lemma break_hours_calc_bad_start (s : String) (be : Option String)
    (hs : strptimeHM s = none) : break_hours_calc (some s) be = 0 := by
  unfold break_hours_calc
  rcases Bool.eq_false_or_eq_true (pyStrTruthy (some s) && pyStrTruthy be) with hb | hb
  · rw [if_pos hb]
    rcases hq : strptimeHM (optStr be) with _ | q <;> simp [optStr, hs, hq]
  · rw [if_neg (by simp [hb])]

lemma break_hours_calc_bad_end (bs : Option String) (e : String)
    (he : strptimeHM e = none) : break_hours_calc bs (some e) = 0 := by
  unfold break_hours_calc
  rcases Bool.eq_false_or_eq_true (pyStrTruthy bs && pyStrTruthy (some e)) with hb | hb
  · rw [if_pos hb]
    rcases hp : strptimeHM (optStr bs) with _ | p <;> simp [optStr, he, hp]
  · rw [if_neg (by simp [hb])]

lemma calculate_zero_of_bad_in (s : String) (co bs be : Option String)
    (hs : strptimeHM s = none) :
    calculate_work_stats (some s) co bs be = (0, 0, 0) := by
  unfold calculate_work_stats
  rcases Bool.eq_false_or_eq_true (!pyStrTruthy (some s) || !pyStrTruthy co) with hc | hc
  · rw [if_pos hc]
  · rw [if_neg (by simp [hc])]
    rcases hq : strptimeHM (optStr co) with _ | q <;> simp [optStr, hs, hq]

lemma calculate_zero_of_bad_out (ci : Option String) (s : String) (bs be : Option String)
    (hs : strptimeHM s = none) :
    calculate_work_stats ci (some s) bs be = (0, 0, 0) := by
  unfold calculate_work_stats
  rcases Bool.eq_false_or_eq_true (!pyStrTruthy ci || !pyStrTruthy (some s)) with hc | hc
  · rw [if_pos hc]
  · rw [if_neg (by simp [hc])]
    rcases hp : strptimeHM (optStr ci) with _ | p <;> simp [optStr, hs, hp]

lemma isDigit_ne_colon (c : Char) (h : c.isDigit = true) : ¬ c = ':' := by
  intro he
  subst he
  exact absurd h (by decide)

/-- Every strict two-digit HH:MM string is accepted by the strptime
embedding. -/
lemma strict_accepted (s : String) (h : strictHHMM s = true) :
    (strptimeHM s).isSome = true := by
  unfold strictHHMM at h
  rcases hl : s.toList with _ | ⟨c1, _ | ⟨c2, _ | ⟨c3, _ | ⟨c4, _ | ⟨c5, rest⟩⟩⟩⟩⟩
  · rw [hl] at h; simp at h
  · rw [hl] at h; simp at h
  · rw [hl] at h; simp at h
  · rw [hl] at h; simp at h
  · rw [hl] at h; simp at h
  · rcases rest with _ | ⟨c6, rest⟩
    · rw [hl] at h
      simp only [Bool.and_eq_true] at h
      obtain ⟨⟨⟨⟨⟨⟨hA, hB⟩, hC⟩, hD⟩, hE⟩, hF⟩, hG⟩ := h
      have hc3 : c3 = ':' := by simpa using hA
      subst hc3
      have n1 : ¬ c1 = ':' := isDigit_ne_colon c1 hB
      have n2 : ¬ c2 = ':' := isDigit_ne_colon c2 hC
      have n4 : ¬ c4 = ':' := isDigit_ne_colon c4 hD
      have n5 : ¬ c5 = ':' := isDigit_ne_colon c5 hE
      unfold strptimeHM
      rw [hl]
      have hsplit : splitOnColon [c1, c2, ':', c4, c5] = [[c1, c2], [c4, c5]] := by
        simp [splitOnColon, n1, n2, n4, n5]
      rw [hsplit]
      simp [parseTimeTok, hB, hC, hD, hE, hF, hG]
    · rw [hl] at h; simp at h

/-! ### Claim theorems -/

/-- C1: if either clock_in or clock_out is absent, `calculate_work_stats`
returns `(0, 0, 0)` with no computation attempted; otherwise (present and
well-formed), net hours equal `max 0 (gross span - break duration)`, the
break duration being counted only when both break events are present and
zero otherwise, and overtime hours equal `max 0 (net hours - 7.5)`. -/
theorem c1_engine_contract (ci co bs be : Option String) :
    ((ci = none ∨ co = none) → calculate_work_stats ci co bs be = (0, 0, 0)) ∧
    (∀ (sIn sOut : String) (a b : ℕ), ci = some sIn → co = some sOut →
      strptimeHM sIn = some a → strptimeHM sOut = some b →
      (calculate_work_stats ci co bs be).1 =
        max 0 (spec_gross_span a b - spec_break_duration bs be) ∧
      (calculate_work_stats ci co bs be).2.1 =
        max 0 ((calculate_work_stats ci co bs be).1 - (7.5 : ℚ))) := by
  constructor
  · rintro (rfl | rfl) <;> simp [calculate_work_stats, pyStrTruthy]
  · rintro sIn sOut a b rfl rfl h3 h4
    rw [calculate_work_stats_eq sIn sOut bs be a b h3 h4]
    refine ⟨rfl, ?_⟩
    have hw : WORK_HOURS_PER_DAY = (7.5 : ℚ) := by norm_num [WORK_HOURS_PER_DAY]
    rw [hw]

/-- Witness for C1 at concrete inputs: an absent clock_out zeroes the day,
and the 09:00-18:00 day with a 12:00-13:00 break satisfies the net and
overtime equations. -/
theorem c1_engine_contract_witness :
    calculate_work_stats none (some "18:00") none none = (0, 0, 0) ∧
    ((calculate_work_stats (some "09:00") (some "18:00") (some "12:00") (some "13:00")).1 =
      max 0 (spec_gross_span 540 1080 - spec_break_duration (some "12:00") (some "13:00")) ∧
     (calculate_work_stats (some "09:00") (some "18:00") (some "12:00") (some "13:00")).2.1 =
      max 0 ((calculate_work_stats (some "09:00") (some "18:00")
        (some "12:00") (some "13:00")).1 - (7.5 : ℚ))) :=
  ⟨(c1_engine_contract none (some "18:00") none none).1 (Or.inl rfl),
   (c1_engine_contract (some "09:00") (some "18:00") (some "12:00") (some "13:00")).2
     "09:00" "18:00" 540 1080 rfl rfl rfl rfl⟩

/-- C2: for present, well-formed clock events, the night-hours output is
the count of whole minutes of the half-open clocked interval whose
hour-of-day (after the day-crossing adjustment) is at least 22 or below
5, divided by 60. -/
theorem c2_night_minute_classification (ci co bs be : Option String) (sIn sOut : String)
    (a b : ℕ) (h1 : ci = some sIn) (h2 : co = some sOut)
    (h3 : strptimeHM sIn = some a) (h4 : strptimeHM sOut = some b) :
    (calculate_work_stats ci co bs be).2.2 =
      (spec_night_minutes a (if b < a then b + 1440 else b) : ℚ) / 60 := by
  subst h1
  subst h2
  rw [calculate_work_stats_eq sIn sOut bs be a b h3 h4]

/-- Witness for C2: a 21:00-23:00 day, whose night minutes are those from
22:00 on. -/
theorem c2_night_minute_classification_witness :
    (calculate_work_stats (some "21:00") (some "23:00") none none).2.2 =
      (spec_night_minutes 1260 (if 1380 < 1260 then 1380 + 1440 else 1380) : ℚ) / 60 :=
  c2_night_minute_classification (some "21:00") (some "23:00") none none
    "21:00" "23:00" 1260 1380 rfl rfl rfl rfl

/-- C3: when clock_out's time-of-day is strictly earlier than clock_in's,
24 hours are added to clock_out before any duration is computed, and
independently 24 hours are added to break_end when it is strictly earlier
than break_start; in particular 23:00-02:00 with no break yields net 3.0,
overtime 0.0, night 3.0. -/
theorem c3_day_crossing_rule :
    (∀ (sIn sOut : String) (bs be : Option String) (a b : ℕ),
      strptimeHM sIn = some a → strptimeHM sOut = some b → b < a →
      (calculate_work_stats (some sIn) (some sOut) bs be).1 =
        max 0 ((((b + 1440 : ℕ) : ℚ) - ((a : ℕ) : ℚ)) / 60 - spec_break_duration bs be)) ∧
    (∀ (sbs sbe : String) (p q : ℕ),
      strptimeHM sbs = some p → strptimeHM sbe = some q → q < p →
      break_hours_calc (some sbs) (some sbe) =
        (((q + 1440 : ℕ) : ℚ) - ((p : ℕ) : ℚ)) / 60) ∧
    calculate_work_stats (some "23:00") (some "02:00") none none = (3, 0, 3) := by
  refine ⟨?_, ?_, ?_⟩
  · intro sIn sOut bs be a b h3 h4 hlt
    rw [calculate_work_stats_eq sIn sOut bs be a b h3 h4]
    show max 0 (spec_gross_span a b - spec_break_duration bs be) = _
    unfold spec_gross_span
    rw [if_pos hlt]
  · intro sbs sbe p q hp hq hlt
    rw [break_hours_calc_eq_spec]
    unfold spec_break_duration
    simp only [hp, hq]
    rw [if_pos hlt]
  · rw [calculate_work_stats_eq "23:00" "02:00" none none 1380 120 rfl rfl]
    have hif : (if (120 : ℕ) < 1380 then (120 : ℕ) + 1440 else 120) = 1560 := by norm_num
    have h2 : spec_gross_span 1380 120 = 3 := by norm_num [spec_gross_span]
    have h3 : spec_break_duration none none = 0 := rfl
    have h4 : spec_night_minutes 1380 (if (120 : ℕ) < 1380 then 120 + 1440 else 120) = 180 := by
      rw [hif]
      decide
    rw [h2, h3, h4]
    simp only [Prod.mk.injEq]
    refine ⟨?_, ?_, ?_⟩ <;> norm_num [WORK_HOURS_PER_DAY, max_def]

/-- Witness for C3: the day-crossing equations applied at 23:00-02:00 and
at the break pair 23:30-00:15. -/
theorem c3_day_crossing_rule_witness :
    (calculate_work_stats (some "23:00") (some "02:00") none none).1 =
      max 0 ((((120 + 1440 : ℕ) : ℚ) - ((1380 : ℕ) : ℚ)) / 60 -
        spec_break_duration none none) ∧
    break_hours_calc (some "23:30") (some "00:15") =
      (((15 + 1440 : ℕ) : ℚ) - ((1410 : ℕ) : ℚ)) / 60 :=
  ⟨c3_day_crossing_rule.1 "23:00" "02:00" none none 1380 120 rfl rfl (by norm_num),
   c3_day_crossing_rule.2.1 "23:30" "00:15" 1410 15 rfl rfl (by norm_num)⟩

/-- C7: for present, well-formed clock events the night-hours output does
not depend on the break arguments: it equals the night hours computed with
both break fields absent. -/
theorem c7_night_ignores_break (ci co bs be : Option String) (sIn sOut : String)
    (a b : ℕ) (h1 : ci = some sIn) (h2 : co = some sOut)
    (h3 : strptimeHM sIn = some a) (h4 : strptimeHM sOut = some b) :
    (calculate_work_stats ci co bs be).2.2 =
      (calculate_work_stats ci co none none).2.2 := by
  subst h1
  subst h2
  rw [calculate_work_stats_eq sIn sOut bs be a b h3 h4,
    calculate_work_stats_eq sIn sOut none none a b h3 h4]

/-- Witness for C7: a night shift with a night-time break has the same
night hours as the same shift with no break recorded. -/
theorem c7_night_ignores_break_witness :
    (calculate_work_stats (some "22:00") (some "05:00")
        (some "23:00") (some "23:30")).2.2 =
      (calculate_work_stats (some "22:00") (some "05:00") none none).2.2 :=
  c7_night_ignores_break (some "22:00") (some "05:00") (some "23:00") (some "23:30")
    "22:00" "05:00" 1320 300 rfl rfl rfl rfl

/-- C4: for every invalid (year, month) — a month outside 1..12 or a year
outside the supported range of `datetime.date` — the report generation
call fails as a hard error (the `ValueError` of the day-1 date
construction propagates out of the loop); it never completes with a
substituted month length. -/
theorem c4_invalid_calendar_hard_error (year month : ℤ) (records : List AttRecord)
    (h : ¬ (1 ≤ year ∧ year ≤ 9999 ∧ 1 ≤ month ∧ month ≤ 12)) :
    generate_monthly_report_excel year month records = Except.error () := by
  have hpos : 0 < (monthrange year month).getD 30 := by
    unfold monthrange
    by_cases hm : 1 ≤ month ∧ month ≤ 12
    · rw [if_pos hm]
      simpa using daysInMonth_pos year month hm.1 hm.2
    · rw [if_neg hm]
      norm_num
  obtain ⟨k, hk⟩ : ∃ k, (monthrange year month).getD 30 = k + 1 :=
    ⟨(monthrange year month).getD 30 - 1, by omega⟩
  have hbad : ¬ pyDateValid year month 1 := by
    unfold pyDateValid
    intro hv
    exact h ⟨hv.1, hv.2.1, hv.2.2.1, hv.2.2.2.1⟩
  unfold generate_monthly_report_excel
  simp only [hk, List.range'_succ]
  simp only [reportLoop, reportStep, if_neg hbad]

/-- Witness for C4: month 13 of 2024 is rejected as a hard error. -/
theorem c4_invalid_calendar_hard_error_witness :
    generate_monthly_report_excel 2024 13 [] = Except.error () :=
  c4_invalid_calendar_hard_error 2024 13 [] (by decide)

/-- C5 counterexample: at v = 1/16 (a value exactly representable in
binary floating point, with every intermediate product exact) the code
renders "00:03" — `int(0.0625 * 60) = int(3.75) = 3` — while the claimed
`round(fractional_part * 60)` gives 4 and hence "00:04". -/
theorem c5_round_counterexample :
    format_hour (1 / 16 : ℚ) = "00:03" ∧
    format_hour_round (1 / 16 : ℚ) = "00:04" ∧
    format_hour (1 / 16 : ℚ) ≠ format_hour_round (1 / 16 : ℚ) := by
  have hA : format_hour (1 / 16 : ℚ) = "00:03" := by
    unfold format_hour
    rw [if_neg (by norm_num)]
    have e1 : pyIntTrunc (1 / 16 : ℚ) = 0 := by
      unfold pyIntTrunc
      rw [show (1 / 16 : ℚ).num = 1 from by norm_num,
        show (1 / 16 : ℚ).den = 16 from by norm_num]
      decide
    rw [e1]
    dsimp only
    have e2 : ((1 / 16 : ℚ) - ((0 : ℤ) : ℚ)) * 60 = 15 / 4 := by norm_num
    rw [e2]
    have e3 : pyIntTrunc (15 / 4 : ℚ) = 3 := by
      unfold pyIntTrunc
      rw [show (15 / 4 : ℚ).num = 15 from by norm_num,
        show (15 / 4 : ℚ).den = 4 from by norm_num]
      decide
    rw [e3]
    rfl
  have hB : format_hour_round (1 / 16 : ℚ) = "00:04" := by
    unfold format_hour_round
    rw [if_neg (by norm_num)]
    have e1 : ⌊(1 / 16 : ℚ)⌋ = 0 := by
      rw [Int.floor_eq_zero_iff]
      constructor <;> norm_num
    rw [e1]
    have e2 : ((1 / 16 : ℚ) - ((0 : ℤ) : ℚ)) * 60 = 15 / 4 := by norm_num
    rw [e2]
    have e3 : round (15 / 4 : ℚ) = 4 := by norm_num [round_eq]
    rw [e3]
    rfl
  refine ⟨hA, hB, ?_⟩
  rw [hA, hB]
  decide

/-- C5 amended: the formatter truncates the minute part — for non-negative
v, `format_hour v` equals the floor-based rendering (empty for v = 0),
and the examples 7.5 ↦ "07:30", 0.25 ↦ "00:15", 0.0 ↦ "" hold. -/
theorem c5_formatter_truncates_minutes :
    (∀ val : ℚ, 0 ≤ val → format_hour val = format_hour_floor val) ∧
    format_hour (15 / 2 : ℚ) = "07:30" ∧
    format_hour (1 / 4 : ℚ) = "00:15" ∧
    format_hour (0 : ℚ) = "" := by
  refine ⟨?_, ?_, ?_, ?_⟩
  · intro val hv
    unfold format_hour format_hour_floor
    by_cases h0 : val = 0
    · rw [if_pos h0, if_pos h0]
    · rw [if_neg h0, if_neg h0]
      dsimp only
      rw [pyIntTrunc_eq_floor val hv]
      rw [pyIntTrunc_eq_floor ((val - (⌊val⌋ : ℚ)) * 60)
        (mul_nonneg (sub_nonneg.mpr (Int.floor_le val)) (by norm_num))]
  · unfold format_hour
    rw [if_neg (by norm_num)]
    have e1 : pyIntTrunc (15 / 2 : ℚ) = 7 := by
      unfold pyIntTrunc
      rw [show (15 / 2 : ℚ).num = 15 from by norm_num,
        show (15 / 2 : ℚ).den = 2 from by norm_num]
      decide
    rw [e1]
    dsimp only
    have e2 : ((15 / 2 : ℚ) - ((7 : ℤ) : ℚ)) * 60 = 30 := by norm_num
    rw [e2]
    have e3 : pyIntTrunc (30 : ℚ) = 30 := by
      unfold pyIntTrunc
      rw [show (30 : ℚ).num = 30 from by norm_num,
        show (30 : ℚ).den = 1 from by norm_num]
      decide
    rw [e3]
    rfl
  · unfold format_hour
    rw [if_neg (by norm_num)]
    have e1 : pyIntTrunc (1 / 4 : ℚ) = 0 := by
      unfold pyIntTrunc
      rw [show (1 / 4 : ℚ).num = 1 from by norm_num,
        show (1 / 4 : ℚ).den = 4 from by norm_num]
      decide
    rw [e1]
    dsimp only
    have e2 : ((1 / 4 : ℚ) - ((0 : ℤ) : ℚ)) * 60 = 15 := by norm_num
    rw [e2]
    have e3 : pyIntTrunc (15 : ℚ) = 15 := by
      unfold pyIntTrunc
      rw [show (15 : ℚ).num = 15 from by norm_num,
        show (15 : ℚ).den = 1 from by norm_num]
      decide
    rw [e3]
    rfl
  · unfold format_hour
    rw [if_pos rfl]

/-- Witness for C5 (amended): the truncating equation applied at 1/16. -/
theorem c5_formatter_truncates_minutes_witness :
    (0 : ℚ) ≤ 1 / 16 ∧
    format_hour (1 / 16 : ℚ) = format_hour_floor (1 / 16 : ℚ) :=
  ⟨by norm_num, c5_formatter_truncates_minutes.1 (1 / 16) (by norm_num)⟩

/-- C6 counterexample: "9:05" does not match the strict two-digit HH:MM
pattern, yet strptime with %H:%M accepts it (single-digit hour), so the
engine computes a non-zero day instead of treating the field as absent. -/
theorem c6_strict_pattern_counterexample :
    strictHHMM "9:05" = false ∧ strptimeHM "9:05" = some 545 ∧
    calculate_work_stats (some "9:05") (some "18:00") none none ≠ (0, 0, 0) := by
  refine ⟨rfl, rfl, fun hcon => ?_⟩
  rw [calculate_work_stats_eq "9:05" "18:00" none none 545 1080 rfl rfl] at hcon
  have hfst : max 0 (spec_gross_span 545 1080 - spec_break_duration none none) = 0 :=
    congrArg Prod.fst hcon
  rw [show spec_break_duration none none = 0 from rfl] at hfst
  rw [show spec_gross_span 545 1080 = 535 / 60 from by norm_num [spec_gross_span]] at hfst
  norm_num [max_def] at hfst

/-- C6 amended: parsing accepts the strptime %H:%M pattern — every strict
HH:MM string, but also one-digit hour or minute forms such as "9:05" —
and any string it rejects is treated as the field being absent for that
one computation: a rejected clock_in or clock_out yields the zero triple,
and a rejected break string yields the same result as an absent break
field; no input string aborts the computation. -/
theorem c6_lenient_parse_amended :
    (∀ s : String, strictHHMM s = true → (strptimeHM s).isSome = true) ∧
    strptimeHM "9:05" = some 545 ∧ strictHHMM "9:05" = false ∧
    (∀ (s : String) (co bs be : Option String), strptimeHM s = none →
      calculate_work_stats (some s) co bs be = (0, 0, 0)) ∧
    (∀ (ci : Option String) (s : String) (bs be : Option String), strptimeHM s = none →
      calculate_work_stats ci (some s) bs be = (0, 0, 0)) ∧
    (∀ (ci co : Option String) (s : String) (be : Option String), strptimeHM s = none →
      calculate_work_stats ci co (some s) be = calculate_work_stats ci co none be) ∧
    (∀ (ci co bs : Option String) (s : String), strptimeHM s = none →
      calculate_work_stats ci co bs (some s) = calculate_work_stats ci co bs none) := by
  refine ⟨fun s h => strict_accepted s h, rfl, rfl, ?_, ?_, ?_, ?_⟩
  · intro s co bs be hs
    exact calculate_zero_of_bad_in s co bs be hs
  · intro ci s bs be hs
    exact calculate_zero_of_bad_out ci s bs be hs
  · intro ci co s be hs
    refine calculate_break_congr ci co (some s) be none be ?_
    rw [break_hours_calc_bad_start s be hs, break_hours_calc_none_left be]
  · intro ci co bs s hs
    refine calculate_break_congr ci co bs (some s) bs none ?_
    rw [break_hours_calc_bad_end bs s hs, break_hours_calc_none_right bs]

/-- Witness for C6 (amended): a strict string is accepted and a rejected
string zeroes the day. -/
theorem c6_lenient_parse_amended_witness :
    (strptimeHM "07:30").isSome = true ∧
    calculate_work_stats (some "abc") (some "18:00") none none = (0, 0, 0) :=
  ⟨c6_lenient_parse_amended.1 "07:30" rfl,
   c6_lenient_parse_amended.2.2.2.1 "abc" (some "18:00") none none rfl⟩

/-- C9: a fixed-monthly employee's estimate is the configured salary
unchanged; an hourly employee's estimate is the floor of net hours times
the rate; in particular salary 300000 gives 300000 and rate 1200 with
160.0 net hours gives 192000. -/
theorem c9_payroll_estimate (salary : ℤ) (hours : ℚ) :
    (∀ t : String, t = "月給" → est_pay t salary hours = salary) ∧
    (∀ t : String, ¬ t = "月給" → 0 ≤ hours → 0 ≤ salary →
      est_pay t salary hours = ⌊hours * (salary : ℚ)⌋) ∧
    est_pay "月給" 300000 hours = 300000 ∧
    est_pay "時給" 1200 160 = 192000 := by
  refine ⟨?_, ?_, ?_, ?_⟩
  · intro t ht
    subst ht
    unfold est_pay
    rw [if_pos rfl]
  · intro t ht hh hs
    unfold est_pay
    rw [if_neg ht]
    refine pyIntTrunc_eq_floor _ (mul_nonneg hh ?_)
    exact_mod_cast hs
  · unfold est_pay
    rw [if_pos rfl]
  · unfold est_pay
    rw [if_neg (by decide)]
    rw [show ((160 : ℚ) * ((1200 : ℤ) : ℚ)) = 192000 from by norm_num]
    rw [pyIntTrunc_eq_floor _ (by norm_num)]
    rw [show ((192000 : ℚ)) = (((192000 : ℤ) : ℚ)) from by norm_num]
    exact Int.floor_intCast 192000

/-- Witness for C9: both pay bases evaluated at the spec's figures. -/
theorem c9_payroll_estimate_witness :
    est_pay "月給" 300000 160 = 300000 ∧
    est_pay "時給" 1200 160 = ⌊(160 : ℚ) * ((1200 : ℤ) : ℚ)⌋ :=
  ⟨(c9_payroll_estimate 300000 160).1 "月給" rfl,
   (c9_payroll_estimate 1200 160).2.1 "時給" (by decide) (by norm_num) (by norm_num)⟩

/-- C8: on a valid (year, month) the generator succeeds; the totals it
writes (and formats into the trailing totals row through `format_hour`)
are exactly the sums of the per-day DayStats over days 1..last_day, a day
without a record contributing zero; an empty record set yields all-zero
totals. -/
theorem c8_totals_equal_daystat_sum (year month : ℤ) (records : List AttRecord)
    (h : 1 ≤ year ∧ year ≤ 9999 ∧ 1 ≤ month ∧ month ≤ 12) :
    (∃ rep, generate_monthly_report_excel year month records = Except.ok rep ∧
      rep.total_net = ((List.range' 1 (daysInMonth year month)).map
        (fun d => (statOfRecord (dayLookup records year month d)).1)).sum ∧
      rep.total_over = ((List.range' 1 (daysInMonth year month)).map
        (fun d => (statOfRecord (dayLookup records year month d)).2.1)).sum ∧
      rep.total_night = ((List.range' 1 (daysInMonth year month)).map
        (fun d => (statOfRecord (dayLookup records year month d)).2.2)).sum ∧
      rep.cellTotalNet = format_hour rep.total_net ∧
      rep.cellTotalOver = format_hour rep.total_over ∧
      rep.cellTotalNight = format_hour rep.total_night) ∧
    (∃ rep0, generate_monthly_report_excel year month [] = Except.ok rep0 ∧
      rep0.total_net = 0 ∧ rep0.total_over = 0 ∧ rep0.total_night = 0) := by
  obtain ⟨h1, h2, h3, h4⟩ := h
  constructor
  · exact ⟨_, generate_eq year month records h1 h2 h3 h4, rfl, rfl, rfl, rfl, rfl, rfl⟩
  · refine ⟨_, generate_eq year month [] h1 h2 h3 h4, ?_, ?_, ?_⟩ <;>
    · refine List.sum_eq_zero ?_
      intro x hx
      rw [List.mem_map] at hx
      obtain ⟨d, _, rfl⟩ := hx
      rfl

/-- Witness for C8: February 2024 with one worked day. -/
theorem c8_totals_equal_daystat_sum_witness :
    (∃ rep, generate_monthly_report_excel 2024 2 [sampleRecord] = Except.ok rep ∧
      rep.total_net = ((List.range' 1 (daysInMonth 2024 2)).map
        (fun d => (statOfRecord (dayLookup [sampleRecord] 2024 2 d)).1)).sum ∧
      rep.total_over = ((List.range' 1 (daysInMonth 2024 2)).map
        (fun d => (statOfRecord (dayLookup [sampleRecord] 2024 2 d)).2.1)).sum ∧
      rep.total_night = ((List.range' 1 (daysInMonth 2024 2)).map
        (fun d => (statOfRecord (dayLookup [sampleRecord] 2024 2 d)).2.2)).sum ∧
      rep.cellTotalNet = format_hour rep.total_net ∧
      rep.cellTotalOver = format_hour rep.total_over ∧
      rep.cellTotalNight = format_hour rep.total_night) ∧
    (∃ rep0, generate_monthly_report_excel 2024 2 [] = Except.ok rep0 ∧
      rep0.total_net = 0 ∧ rep0.total_over = 0 ∧ rep0.total_night = 0) :=
  c8_totals_equal_daystat_sum 2024 2 [sampleRecord] (by decide)

/-- C10: on a valid (year, month), each day's row and each day's
contribution to the monthly totals come from the last record in the given
sequence whose date matches that day — duplicates are overwritten in the
date-keyed dict, never summed. -/
theorem c10_last_duplicate_record_wins (year month : ℤ) (records : List AttRecord)
    (h : 1 ≤ year ∧ year ≤ 9999 ∧ 1 ≤ month ∧ month ≤ 12) :
    ∃ rep, generate_monthly_report_excel year month records = Except.ok rep ∧
      rep.rows = (List.range' 1 (daysInMonth year month)).map
        (fun d => rowOfRecord d
          ((records.filter (fun r => r.date == dateStr year month d)).getLast?)) ∧
      rep.total_net = ((List.range' 1 (daysInMonth year month)).map
        (fun d => (statOfRecord
          ((records.filter (fun r => r.date == dateStr year month d)).getLast?)).1)).sum ∧
      rep.total_over = ((List.range' 1 (daysInMonth year month)).map
        (fun d => (statOfRecord
          ((records.filter (fun r => r.date == dateStr year month d)).getLast?)).2.1)).sum ∧
      rep.total_night = ((List.range' 1 (daysInMonth year month)).map
        (fun d => (statOfRecord
          ((records.filter (fun r => r.date == dateStr year month d)).getLast?)).2.2)).sum := by
  obtain ⟨h1, h2, h3, h4⟩ := h
  refine ⟨_, generate_eq year month records h1 h2 h3 h4, ?_, ?_, ?_, ?_⟩ <;>
    simp only [dayLookup, buildAttMap_lookup]

/-- Witness for C10: January 2024 with two records on the same date. -/
theorem c10_last_duplicate_record_wins_witness :
    ∃ rep, generate_monthly_report_excel 2024 1 [dupRecordA, dupRecordB] = Except.ok rep ∧
      rep.rows = (List.range' 1 (daysInMonth 2024 1)).map
        (fun d => rowOfRecord d
          (([dupRecordA, dupRecordB].filter
            (fun r => r.date == dateStr 2024 1 d)).getLast?)) ∧
      rep.total_net = ((List.range' 1 (daysInMonth 2024 1)).map
        (fun d => (statOfRecord (([dupRecordA, dupRecordB].filter
          (fun r => r.date == dateStr 2024 1 d)).getLast?)).1)).sum ∧
      rep.total_over = ((List.range' 1 (daysInMonth 2024 1)).map
        (fun d => (statOfRecord (([dupRecordA, dupRecordB].filter
          (fun r => r.date == dateStr 2024 1 d)).getLast?)).2.1)).sum ∧
      rep.total_night = ((List.range' 1 (daysInMonth 2024 1)).map
        (fun d => (statOfRecord (([dupRecordA, dupRecordB].filter
          (fun r => r.date == dateStr 2024 1 d)).getLast?)).2.2)).sum :=
  c10_last_duplicate_record_wins 2024 1 [dupRecordA, dupRecordB] (by decide)

end Attendance
